import Mathlib

/-
  Verification development for the Vekku React dashboard client.

  The definitions below are a shallow embedding of the client-side logic:
  - the chunk/offset pagination handlers of `src/pages/Contents.tsx`,
    `src/components/TagSelector.tsx` and `src/pages/Tags.tsx`
    (all three share the same handler bodies, instantiated at the module
    constant `LIMIT`, which is 5 in Contents/TagSelector and 20 in Tags);
  - the tag-selection toggle of `src/pages/Contents.tsx` (`togglePendingTag`);
  - the axios authentication wrapper of `src/lib/api.ts`
    (request/response interceptors, single-flight refresh queue).

  JavaScript values are embedded as follows: numbers used by the pagination
  arithmetic are `Int` (all operations involved are exact on floats);
  `string | null` / `string | undefined` is `Option String`; JS truthiness
  of an optional string (`if (x)`, `x || d`) is modelled explicitly.
-/

namespace Vekku

/-- Occurrence of `pat` as a contiguous sublist of a character list; used to
model JavaScript `String.prototype.includes`. -/
def subOccurs (pat : List Char) : List Char → Bool
  | [] => pat.isEmpty
  | c :: rest => pat.isPrefixOf (c :: rest) || subOccurs pat rest

/-- Model of JavaScript `s.includes(pat)`. -/
def strIncludes (s pat : String) : Bool :=
  subOccurs pat.data s.data

/-- Model of JavaScript `o || dflt` for an optional string `o`:
the empty string is falsy, so it also selects the default. -/
def jsOrElse : Option String → String → String
  | some s, dflt => if s == "" then dflt else s
  | none, dflt => dflt

/-- Model of JavaScript truthiness of a `string | null` value
(`null`/`undefined` and `""` are falsy). -/
def truthyStr : Option String → Bool
  | some s => !(s == "")
  | none => false

/- ===== Pagination (Contents.tsx lines 26-42, 89-110; TagSelector.tsx
lines 12-18, 32-36, 83-117; Tags.tsx has the same handlers) ===== -/

/-- The `PaginationMetadata` interface of Contents.tsx / TagSelector.tsx. -/
structure PagMetadata where
  nextChunkId : Option String
  chunkSize : Int
  chunkTotalItems : Int
  limit : Int
  offset : Int
deriving DecidableEq

/-- The component pagination state: `offset`, `chunkId`, `chunkStack`
(Contents.tsx lines 40-42). -/
structure PagState where
  offset : Int
  chunkId : Option String
  chunkStack : List String
deriving DecidableEq

/-- Initial pagination state: `useState(0)`, `useState(undefined)`,
`useState([])` (Contents.tsx lines 40-42). -/
def initPagState : PagState :=
  { offset := 0, chunkId := none, chunkStack := [] }

/-- `handleNext` of Contents.tsx lines 89-98, parameterised by the module
constant `LIMIT` (5 in Contents.tsx, 20 in Tags.tsx). `metadata` may be
absent (`if (!metadata) return`). The guard on `metadata.nextChunkId` is JS
truthiness; the value pushed on the stack is `chunkId || ""`. -/
def handleNext (L : Int) (metadata : Option PagMetadata) (s : PagState) : PagState :=
  match metadata with
  | none => s
  | some md =>
    if s.offset + L < md.chunkTotalItems then
      { s with offset := s.offset + L }
    else if truthyStr md.nextChunkId then
      { offset := 0
        chunkId := md.nextChunkId
        chunkStack := s.chunkStack ++ [jsOrElse s.chunkId ""] }
    else s

/-- `handlePrev` of Contents.tsx lines 100-110: step the offset back when
possible, otherwise pop the last pushed chunk id (the popped empty string
denotes `undefined`). It reads no metadata. -/
def handlePrev (L : Int) (s : PagState) : PagState :=
  if s.offset - L ≥ 0 then
    { s with offset := s.offset - L }
  else
    match s.chunkStack.getLast? with
    | some prevChunk =>
      { offset := 0
        chunkId := if prevChunk == "" then none else some prevChunk
        chunkStack := s.chunkStack.dropLast }
    | none => s

/-- `handleNext` of TagSelector.tsx lines 83-99: identical to the Contents
handler except that with an active debounced search query only the
within-chunk branch runs. -/
def tagSelNext (L : Int) (debouncedQuery : String) (metadata : Option PagMetadata)
    (s : PagState) : PagState :=
  match metadata with
  | none => s
  | some md =>
    if !(debouncedQuery == "") then
      if s.offset + L < md.chunkTotalItems then { s with offset := s.offset + L } else s
    else if s.offset + L < md.chunkTotalItems then
      { s with offset := s.offset + L }
    else if truthyStr md.nextChunkId then
      { offset := 0
        chunkId := md.nextChunkId
        chunkStack := s.chunkStack ++ [jsOrElse s.chunkId ""] }
    else s

/-- `handlePrev` of TagSelector.tsx lines 101-117. -/
def tagSelPrev (L : Int) (debouncedQuery : String) (s : PagState) : PagState :=
  if !(debouncedQuery == "") then
    if s.offset - L ≥ 0 then { s with offset := s.offset - L } else s
  else if s.offset - L ≥ 0 then
    { s with offset := s.offset - L }
  else
    match s.chunkStack.getLast? with
    | some prevChunk =>
      { offset := 0
        chunkId := if prevChunk == "" then none else some prevChunk
        chunkStack := s.chunkStack.dropLast }
    | none => s

/-- States reachable from the initial pagination state by any sequence of
`handleNext` (with arbitrary server metadata) and `handlePrev` invocations. -/
inductive Reach (L : Int) : PagState → Prop where
  | init : Reach L initPagState
  | next (metadata : Option PagMetadata) {s : PagState} :
      Reach L s → Reach L (handleNext L metadata s)
  | prev {s : PagState} : Reach L s → Reach L (handlePrev L s)

/-- `togglePendingTag` of Contents.tsx lines 135-139 (the identical
`handleToggleTag` appears in the ContentView revision): remove the id if
present, else append it. -/
def togglePendingTag (tagId : String) (prev : List String) : List String :=
  if prev.contains tagId then prev.filter (fun id => id != tagId) else prev ++ [tagId]

/- ===== Authenticated HTTP client wrapper (src/lib/api.ts) ===== -/

/-- An axios request config, restricted to the fields the interceptors
touch: `url`, `headers.Authorization`, and the mutable `_retry` marker. -/
structure RequestConfig where
  url : Option String
  authHeader : Option String
  retryFlag : Bool
deriving DecidableEq

/-- An axios response error as seen by the response interceptor:
`error.response?.status` and `error.config` (the original request). -/
structure HttpError where
  status : Option Nat
  config : RequestConfig
deriving DecidableEq

/-- The two browser local-storage entries the wrapper uses
(`token`, `refreshToken`). -/
structure Storage where
  token : Option String
  refreshToken : Option String
deriving DecidableEq

/-- The body of a successful `/auth/refresh` response
(`data.accessToken`, `data.refreshToken`). -/
structure TokenPair where
  accessToken : String
  refreshToken : String
deriving DecidableEq

/-- The error thrown inside the refresh `try` block: either
`new Error("No refresh token")` (api.ts line 72) or the HTTP failure of the
refresh POST itself (carrying its status code for identification). -/
inductive RefreshFailure where
  | noToken
  | httpFailure (status : Nat)
deriving DecidableEq

/-- The value a request's promise is rejected with: the original axios
error object, or the refresh error from the `catch` block. These are
distinct JavaScript objects. -/
inductive RejectedWith where
  | origErr (e : HttpError)
  | refreshErr (f : RefreshFailure)
deriving DecidableEq

/-- The final outcome of one request passing through the response
interceptor: rejected to the caller, replayed as `api(originalRequest)`
with the given config, or pushed onto `failedQueue` to be settled when the
in-flight refresh resolves. -/
inductive Outcome where
  | reject (v : RejectedWith)
  | replay (cfg : RequestConfig)
  | queued
deriving DecidableEq

/-- The module-level mutable state of api.ts (`isRefreshing`,
`failedQueue`, local storage), plus two observables: the number of refresh
POSTs issued (`axios.post(refreshUrl, ...)` at line 77) and whether
`window.location.href = "/login"` ran. Queue entries hold the queued
request's config (its promise resolver replays exactly that config). -/
structure ApiState where
  isRefreshing : Bool
  failedQueue : List RequestConfig
  storage : Storage
  refreshCalls : Nat
  redirectedToLogin : Bool
deriving DecidableEq

/-- The base URL of the axios instance (api.ts lines 3-8):
`import.meta.env.VITE_API_URL || "/api"`, a JS truthiness default. -/
def apiBaseURL (viteApiUrl : Option String) : String :=
  jsOrElse viteApiUrl "/api"

/-- The request interceptor (api.ts lines 11-20): attach
`Bearer <token>` when a token is in local storage (JS truthiness). -/
def requestInterceptor (st : Storage) (config : RequestConfig) : RequestConfig :=
  if truthyStr st.token then
    { config with authHeader := some ("Bearer " ++ jsOrElse st.token "") }
  else config

/-- The URL test of api.ts lines 47-50:
`originalRequest.url?.includes("/auth/login") || originalRequest.url?.includes("/auth/refresh")`
(an absent URL is falsy on both sides). -/
def isAuthEndpointUrl : Option String → Bool
  | some u => strIncludes u "/auth/login" || strIncludes u "/auth/refresh"
  | none => false

/-- String interpolation `${token}` of a nullable token (JS renders `null`). -/
def jsTemplateStr : Option String → String
  | some s => s
  | none => "null"

/-- `processQueue` of api.ts lines 28-38: reject every queued promise when
an error is given, otherwise resolve each with the token; a resolved queued
request replays with `Authorization: Bearer <token>` (lines 58-61), a
rejected one propagates the error (lines 62-64). Returns each queued
config with its outcome; the queue itself is emptied by the caller. -/
def processQueue (failure : Option RefreshFailure) (token : Option String)
    (queue : List RequestConfig) : List (RequestConfig × Outcome) :=
  queue.map fun cfg =>
    match failure with
    | some f => (cfg, Outcome.reject (RejectedWith.refreshErr f))
    | none =>
      (cfg, Outcome.replay { cfg with authHeader := some ("Bearer " ++ jsTemplateStr token) })

/-- Result of delivering one response error to the interceptor: either the
call settles synchronously (new state, this request's outcome, outcomes of
any drained queue entries), or a refresh POST is now in flight with the
retried config pending on its resolution. -/
inductive InterceptStep where
  | done (s : ApiState) (out : Outcome) (queueResults : List (RequestConfig × Outcome))
  | inFlight (s : ApiState) (pendingRetry : RequestConfig)
deriving DecidableEq

/-- The response-error interceptor of api.ts lines 42-97, up to the first
`await`. In order: non-401 or already-retried errors are rejected
unchanged (line 96); login/refresh URLs are rejected unchanged (lines
47-52); with a refresh in flight the request is queued (lines 54-65);
otherwise `_retry` is set, `isRefreshing` becomes true and the refresh
begins: `if (!refreshToken) throw` (line 72) fires on a falsy stored
refresh token — absent or the empty string — and the
`throw`/`catch`/`finally` then run synchronously (queue rejected, storage
cleared, redirect, reject with the refresh error); with a truthy stored
token the refresh POST is issued and the call suspends. -/
def onResponseError (s : ApiState) (e : HttpError) : InterceptStep :=
  if e.status == some 401 && !e.config.retryFlag then
    if isAuthEndpointUrl e.config.url then
      InterceptStep.done s (Outcome.reject (RejectedWith.origErr e)) []
    else if s.isRefreshing then
      InterceptStep.done { s with failedQueue := s.failedQueue ++ [e.config] }
        Outcome.queued []
    else if !(truthyStr s.storage.refreshToken) then
      InterceptStep.done
        { s with isRefreshing := false
                 failedQueue := []
                 storage := { token := none, refreshToken := none }
                 redirectedToLogin := true }
        (Outcome.reject (RejectedWith.refreshErr RefreshFailure.noToken))
        (processQueue (some RefreshFailure.noToken) none s.failedQueue)
    else
      InterceptStep.inFlight
        { s with isRefreshing := true, refreshCalls := s.refreshCalls + 1 }
        { e.config with retryFlag := true }
  else
    InterceptStep.done s (Outcome.reject (RejectedWith.origErr e)) []

/-- Resolution of the in-flight refresh POST (api.ts lines 77-94). On
success: store both new tokens, drain the queue with the new access token,
replay the pending request with `Bearer <accessToken>`; on failure: drain
the queue with the refresh error, clear both storage entries, redirect to
`/login`, reject with the refresh error. `finally` clears `isRefreshing`. -/
def settleRefresh (s : ApiState) (pendingRetry : RequestConfig)
    (net : Except Nat TokenPair) : ApiState × Outcome × List (RequestConfig × Outcome) :=
  match net with
  | Except.ok d =>
    ({ s with isRefreshing := false
              failedQueue := []
              storage := { token := some d.accessToken, refreshToken := some d.refreshToken } },
     Outcome.replay { pendingRetry with authHeader := some ("Bearer " ++ d.accessToken) },
     processQueue none (some d.accessToken) s.failedQueue)
  | Except.error code =>
    ({ s with isRefreshing := false
              failedQueue := []
              storage := { token := none, refreshToken := none }
              redirectedToLogin := true },
     Outcome.reject (RejectedWith.refreshErr (RefreshFailure.httpFailure code)),
     processQueue (some (RefreshFailure.httpFailure code)) none s.failedQueue)

/-- Deliver a list of response errors in sequence, tracking only the shared
interceptor state (each event's own outcome is given by `onResponseError`). -/
def deliverAll (s : ApiState) (errs : List HttpError) : ApiState :=
  match errs with
  | [] => s
  | e :: rest =>
    match onResponseError s e with
    | InterceptStep.done s' _ _ => deliverAll s' rest
    | InterceptStep.inFlight s' _ => deliverAll s' rest

/- ===== Pagination lemmas ===== -/

/-- Every state reachable by next/prev sequences has a nonnegative offset,
an offset divisible by the limit, and a chunk id that is never the empty
string (the handlers encode `undefined` as a popped `""` and only adopt a
truthy `nextChunkId`). -/
theorem reach_invariant (L : Int) (hL : 0 < L) {s : PagState} (hs : Reach L s) :
    0 ≤ s.offset ∧ s.offset % L = 0 ∧ s.chunkId ≠ some "" := by
  induction hs with
  | init => exact ⟨le_refl 0, Int.zero_emod L, by simp [initPagState]⟩
  | @next metadata s h ih =>
    obtain ⟨h0, hmod, hcid⟩ := ih
    cases metadata with
    | none => exact ⟨h0, hmod, hcid⟩
    | some m =>
      by_cases h1 : s.offset + L < m.chunkTotalItems
      · have hstate : handleNext L (some m) s = { s with offset := s.offset + L } := by
          simp [handleNext, h1]
        rw [hstate]
        refine ⟨?_, ?_, hcid⟩
        · show 0 ≤ s.offset + L
          omega
        · show (s.offset + L) % L = 0
          rw [Int.add_emod, Int.emod_self, hmod]
          simp
      · by_cases h2 : truthyStr m.nextChunkId = true
        · have hstate : handleNext L (some m) s =
              { offset := 0, chunkId := m.nextChunkId
                chunkStack := s.chunkStack ++ [jsOrElse s.chunkId ""] } := by
            simp [handleNext, h1, h2]
          rw [hstate]
          refine ⟨le_refl 0, Int.zero_emod L, ?_⟩
          cases hnc : m.nextChunkId with
          | none => simp
          | some c =>
            rw [hnc] at h2
            simp only [truthyStr, Bool.not_eq_true'] at h2
            simpa using fun hc => by simp [hc] at h2
        · have hstate : handleNext L (some m) s = s := by
            simp [handleNext, h1, h2]
          rw [hstate]
          exact ⟨h0, hmod, hcid⟩
  | @prev s h ih =>
    obtain ⟨h0, hmod, hcid⟩ := ih
    by_cases h1 : s.offset - L ≥ 0
    · have hstate : handlePrev L s = { s with offset := s.offset - L } := by
        simp [handlePrev, h1]
      rw [hstate]
      refine ⟨?_, ?_, hcid⟩
      · show 0 ≤ s.offset - L
        omega
      · show (s.offset - L) % L = 0
        rw [Int.sub_emod, Int.emod_self, hmod]
        simp
    · cases hlast : s.chunkStack.getLast? with
      | none =>
        have hstate : handlePrev L s = s := by
          simp [handlePrev, h1, hlast]
        rw [hstate]
        exact ⟨h0, hmod, hcid⟩
      | some prevChunk =>
        have hstate : handlePrev L s =
            { offset := 0
              chunkId := if prevChunk == "" then none else some prevChunk
              chunkStack := s.chunkStack.dropLast } := by
          simp [handlePrev, h1, hlast]
        rw [hstate]
        refine ⟨le_refl 0, Int.zero_emod L, ?_⟩
        by_cases hc : prevChunk == ""
        · simp [hc]
        · simp only [hc]
          simpa using fun h => by simp [h] at hc

/-- Claim C10: in every state reachable from the initial pagination state
(offset 0, no chunk id, empty chunk stack) by any sequence of next/previous
invocations, the offset is nonnegative and an exact multiple of the page
limit, and previous at offset 0 with an empty chunk stack leaves the state
unchanged. -/
theorem pagination_offset_invariant (L : Int) (hL : 0 < L) (s : PagState)
    (hs : Reach L s) :
    0 ≤ s.offset ∧ s.offset % L = 0 ∧
      (s.offset = 0 → s.chunkStack = [] → handlePrev L s = s) := by
  obtain ⟨h0, hmod, _⟩ := reach_invariant L hL hs
  refine ⟨h0, hmod, ?_⟩
  intro hoff hstack
  have hcond : ¬ (s.offset - L ≥ 0) := by omega
  unfold handlePrev
  rw [if_neg hcond, hstack]
  rfl

/-- Witness for C10: the state reached by one next step (23 items, limit 5)
has offset 5, a multiple of 5, and previous is the identity at the initial
state. -/
theorem pagination_offset_invariant_witness :
    0 ≤ (handleNext 5 (some { nextChunkId := none, chunkSize := 5, chunkTotalItems := 23, limit := 5, offset := 0 }) initPagState).offset ∧
    (handleNext 5 (some { nextChunkId := none, chunkSize := 5, chunkTotalItems := 23, limit := 5, offset := 0 }) initPagState).offset % 5 = 0 ∧
    ((handleNext 5 (some { nextChunkId := none, chunkSize := 5, chunkTotalItems := 23, limit := 5, offset := 0 }) initPagState).offset = 0 →
      (handleNext 5 (some { nextChunkId := none, chunkSize := 5, chunkTotalItems := 23, limit := 5, offset := 0 }) initPagState).chunkStack = [] →
      handlePrev 5 (handleNext 5 (some { nextChunkId := none, chunkSize := 5, chunkTotalItems := 23, limit := 5, offset := 0 }) initPagState) =
        handleNext 5 (some { nextChunkId := none, chunkSize := 5, chunkTotalItems := 23, limit := 5, offset := 0 }) initPagState) :=
  pagination_offset_invariant 5 (by decide) _
    (Reach.next _ Reach.init)

/-- Claim C3 (amended): from any reachable pagination state, previous
immediately after a state-changing next restores the prior state exactly
when next advanced within the chunk; when next crossed a chunk boundary,
previous restores the prior chunk id and chunk stack but sets the offset
to 0, which equals the prior offset only when that offset was 0. -/
theorem prev_after_next (L : Int) (hL : 0 < L) (s : PagState) (hs : Reach L s)
    (md : PagMetadata) :
    (s.offset + L < md.chunkTotalItems →
        handlePrev L (handleNext L (some md) s) = s) ∧
    (¬ (s.offset + L < md.chunkTotalItems) → truthyStr md.nextChunkId = true →
        handlePrev L (handleNext L (some md) s) =
          { offset := 0, chunkId := s.chunkId, chunkStack := s.chunkStack }) := by
  obtain ⟨h0, _, hcid⟩ := reach_invariant L hL hs
  constructor
  · intro h1
    have hnext : handleNext L (some md) s = { s with offset := s.offset + L } := by
      simp [handleNext, h1]
    rw [hnext]
    have hcond : ({ s with offset := s.offset + L } : PagState).offset - L ≥ 0 := by
      show s.offset + L - L ≥ 0
      omega
    unfold handlePrev
    rw [if_pos hcond]
    have harith : s.offset + L - L = s.offset := by omega
    show ({ s with offset := s.offset + L - L } : PagState) = s
    rw [harith]
  · intro h1 h2
    have hnext : handleNext L (some md) s =
        { offset := 0, chunkId := md.nextChunkId
          chunkStack := s.chunkStack ++ [jsOrElse s.chunkId ""] } := by
      simp [handleNext, h1, h2]
    have hneg : ¬ ((0 : Int) - L ≥ 0) := by omega
    rw [hnext]
    have hprev : handlePrev L
        { offset := 0, chunkId := md.nextChunkId
          chunkStack := s.chunkStack ++ [jsOrElse s.chunkId ""] } =
        { offset := 0
          chunkId := if jsOrElse s.chunkId "" == "" then none else some (jsOrElse s.chunkId "")
          chunkStack := s.chunkStack } := by
      simp [handlePrev, hneg, hL, List.getLast?_concat, List.dropLast_concat]
    rw [hprev]
    cases hc : s.chunkId with
    | none => simp [jsOrElse]
    | some c =>
      have hcne : ¬ ((c == "") = true) := by
        simp only [beq_iff_eq]
        exact fun h => hcid (by rw [hc, h])
      simp [jsOrElse, hcne]

/-- Witness for C3: after one within-chunk next step from the initial state
(23 items, limit 5), previous restores the initial state. -/
theorem prev_after_next_witness :
    handlePrev 5 (handleNext 5 (some { nextChunkId := none, chunkSize := 5, chunkTotalItems := 23, limit := 5, offset := 0 }) initPagState) = initPagState :=
  (prev_after_next 5 (by decide) initPagState Reach.init
    { nextChunkId := none, chunkSize := 5, chunkTotalItems := 23, limit := 5, offset := 0 }).1
    (by decide)

/-- Counterexample to C3 as stated: the reachable state with offset 20
(four next steps, 23 items, limit 5) advances across a chunk boundary on
the fifth next, and previous then lands on offset 0 of the prior chunk,
not the prior offset 20. -/
theorem prev_after_next_counterexample :
    (handleNext 5 (some { nextChunkId := some "c2", chunkSize := 5, chunkTotalItems := 23, limit := 5, offset := 0 }) (handleNext 5 (some { nextChunkId := some "c2", chunkSize := 5, chunkTotalItems := 23, limit := 5, offset := 0 }) (handleNext 5 (some { nextChunkId := some "c2", chunkSize := 5, chunkTotalItems := 23, limit := 5, offset := 0 }) (handleNext 5 (some { nextChunkId := some "c2", chunkSize := 5, chunkTotalItems := 23, limit := 5, offset := 0 }) initPagState)))).offset = 20 ∧
    (handleNext 5 (some { nextChunkId := some "c2", chunkSize := 5, chunkTotalItems := 23, limit := 5, offset := 0 }) (handleNext 5 (some { nextChunkId := some "c2", chunkSize := 5, chunkTotalItems := 23, limit := 5, offset := 0 }) (handleNext 5 (some { nextChunkId := some "c2", chunkSize := 5, chunkTotalItems := 23, limit := 5, offset := 0 }) (handleNext 5 (some { nextChunkId := some "c2", chunkSize := 5, chunkTotalItems := 23, limit := 5, offset := 0 }) (handleNext 5 (some { nextChunkId := some "c2", chunkSize := 5, chunkTotalItems := 23, limit := 5, offset := 0 }) initPagState))))) ≠
      handleNext 5 (some { nextChunkId := some "c2", chunkSize := 5, chunkTotalItems := 23, limit := 5, offset := 0 }) (handleNext 5 (some { nextChunkId := some "c2", chunkSize := 5, chunkTotalItems := 23, limit := 5, offset := 0 }) (handleNext 5 (some { nextChunkId := some "c2", chunkSize := 5, chunkTotalItems := 23, limit := 5, offset := 0 }) (handleNext 5 (some { nextChunkId := some "c2", chunkSize := 5, chunkTotalItems := 23, limit := 5, offset := 0 }) initPagState))) ∧
    (handlePrev 5 (handleNext 5 (some { nextChunkId := some "c2", chunkSize := 5, chunkTotalItems := 23, limit := 5, offset := 0 }) (handleNext 5 (some { nextChunkId := some "c2", chunkSize := 5, chunkTotalItems := 23, limit := 5, offset := 0 }) (handleNext 5 (some { nextChunkId := some "c2", chunkSize := 5, chunkTotalItems := 23, limit := 5, offset := 0 }) (handleNext 5 (some { nextChunkId := some "c2", chunkSize := 5, chunkTotalItems := 23, limit := 5, offset := 0 }) (handleNext 5 (some { nextChunkId := some "c2", chunkSize := 5, chunkTotalItems := 23, limit := 5, offset := 0 }) initPagState)))))).offset = 0 := by
  decide

/-- Claim C4 (amended): provided the current offset is nonnegative and
below `chunkTotalItems`, next never produces an offset at or beyond
`chunkTotalItems`; and when `offset + limit ≥ chunkTotalItems` with no next
chunk id, next leaves the state unchanged. -/
theorem next_within_total (L : Int) (md : PagMetadata) (s : PagState) :
    (0 ≤ s.offset → s.offset < md.chunkTotalItems →
        (handleNext L (some md) s).offset < md.chunkTotalItems) ∧
    (md.chunkTotalItems ≤ s.offset + L → md.nextChunkId = none →
        handleNext L (some md) s = s) := by
  constructor
  · intro h0 hlt
    by_cases h1 : s.offset + L < md.chunkTotalItems
    · have hnext : handleNext L (some md) s = { s with offset := s.offset + L } := by
        simp [handleNext, h1]
      rw [hnext]
      exact h1
    · by_cases h2 : truthyStr md.nextChunkId = true
      · have hnext : handleNext L (some md) s =
            { offset := 0, chunkId := md.nextChunkId
              chunkStack := s.chunkStack ++ [jsOrElse s.chunkId ""] } := by
          simp [handleNext, h1, h2]
        rw [hnext]
        show (0 : Int) < md.chunkTotalItems
        omega
      · have hnext : handleNext L (some md) s = s := by
          simp [handleNext, h1, h2]
        rw [hnext]
        exact hlt
  · intro h1 h2
    have h1' : ¬ (s.offset + L < md.chunkTotalItems) := by omega
    simp [handleNext, h1', h2, truthyStr]

/-- Witness for C4: at the initial state with 23 items and limit 5, the
next offset stays below 23; at offset 20 with no next chunk id, next is a
no-op. -/
theorem next_within_total_witness :
    (handleNext 5 (some { nextChunkId := none, chunkSize := 5, chunkTotalItems := 23, limit := 5, offset := 0 }) initPagState).offset < 23 ∧
    handleNext 5 (some { nextChunkId := none, chunkSize := 5, chunkTotalItems := 23, limit := 5, offset := 0 }) { offset := 20, chunkId := none, chunkStack := [] } =
      { offset := 20, chunkId := none, chunkStack := [] } :=
  ⟨(next_within_total 5 { nextChunkId := none, chunkSize := 5, chunkTotalItems := 23, limit := 5, offset := 0 } initPagState).1 (by decide) (by decide),
   (next_within_total 5 { nextChunkId := none, chunkSize := 5, chunkTotalItems := 23, limit := 5, offset := 0 } { offset := 20, chunkId := none, chunkStack := [] }).2 (by decide) rfl⟩

/-- Counterexample to C4 as stated: with metadata reporting
`chunkTotalItems = 0` but a truthy next chunk id, next changes the state
and produces an offset (0) that is not below `chunkTotalItems`. -/
theorem next_within_total_counterexample :
    handleNext 5 (some { nextChunkId := some "c2", chunkSize := 5, chunkTotalItems := 0, limit := 5, offset := 0 }) initPagState ≠ initPagState ∧
    ¬ ((handleNext 5 (some { nextChunkId := some "c2", chunkSize := 5, chunkTotalItems := 0, limit := 5, offset := 0 }) initPagState).offset < 0) := by
  decide

/-- Claim C5: toggling a tag id twice in succession returns the selection
set to its original value (membership in the selection list is preserved). -/
theorem toggle_twice_preserves_selection (l : List String) (tagId x : String) :
    x ∈ togglePendingTag tagId (togglePendingTag tagId l) ↔ x ∈ l := by
  by_cases h : tagId ∈ l
  · have h1 : l.contains tagId = true := by simpa using h
    have h2 : (l.filter fun id => id != tagId).contains tagId = false := by
      simp [List.mem_filter]
    simp only [togglePendingTag, h1, h2, if_true, Bool.false_eq_true, if_false]
    simp only [List.mem_append, List.mem_filter, bne_iff_ne, ne_eq, List.mem_singleton]
    constructor
    · rintro (⟨hxl, _⟩ | rfl)
      · exact hxl
      · exact h
    · intro hxl
      by_cases hx : x = tagId
      · exact Or.inr hx
      · exact Or.inl ⟨hxl, hx⟩
  · have h1 : l.contains tagId = false := by simpa using h
    have h2 : (l ++ [tagId]).contains tagId = true := by simp
    simp only [togglePendingTag, h1, Bool.false_eq_true, if_false, h2, if_true]
    simp only [List.filter_append, List.mem_append, List.mem_filter, bne_iff_ne, ne_eq]
    constructor
    · rintro (⟨hxl, _⟩ | hx)
      · exact hxl
      · simp at hx
    · intro hxl
      refine Or.inl ⟨hxl, ?_⟩
      intro he
      exact h (he ▸ hxl)

/-- Claim C6: with `chunkTotalItems = 23`, limit 20 (the handler pattern
instantiated at the Tags page's `LIMIT = 20`), offset 0 and no next chunk
id, the first next sets the offset to 20 and a second next is a no-op
because `20 + 20 ≥ 23`. -/
theorem scenario_23_items_limit_20 :
    handleNext 20 (some { nextChunkId := none, chunkSize := 20, chunkTotalItems := 23, limit := 20, offset := 0 }) initPagState =
      { offset := 20, chunkId := none, chunkStack := [] } ∧
    handleNext 20 (some { nextChunkId := none, chunkSize := 20, chunkTotalItems := 23, limit := 20, offset := 0 }) { offset := 20, chunkId := none, chunkStack := [] } =
      { offset := 20, chunkId := none, chunkStack := [] } ∧
    (23 : Int) ≤ 20 + 20 := by
  decide

/- ===== Authenticated HTTP client lemmas ===== -/

/-- `processQueue` with no error resolves every queued request into a
replay carrying `Bearer <token>`. -/
theorem processQueue_resolve (t : String) (queue : List RequestConfig) :
    processQueue none (some t) queue =
      queue.map fun cfg =>
        (cfg, Outcome.replay { cfg with authHeader := some ("Bearer " ++ t) }) := by
  rfl

/-- Delivering a batch of 401-failing requests (non-auth URLs, not yet
retried) while a refresh is in flight appends each of them to the failed
queue and changes nothing else in the interceptor state. -/
theorem deliverAll_queues (errs : List HttpError) :
    ∀ s : ApiState, s.isRefreshing = true →
      (∀ e ∈ errs, e.status = some 401 ∧ e.config.retryFlag = false ∧
          isAuthEndpointUrl e.config.url = false) →
      deliverAll s errs =
        { s with failedQueue := s.failedQueue ++ errs.map fun e => e.config } := by
  induction errs with
  | nil =>
    intro s _ _
    simp [deliverAll]
  | cons e rest ih =>
    intro s hr he
    obtain ⟨h401, hretry, hurl⟩ := he e (List.mem_cons_self e rest)
    have hstep : onResponseError s e =
        InterceptStep.done { s with failedQueue := s.failedQueue ++ [e.config] }
          Outcome.queued [] := by
      simp [onResponseError, h401, hretry, hurl, hr]
    have hrest : ∀ e' ∈ rest, e'.status = some 401 ∧ e'.config.retryFlag = false ∧
        isAuthEndpointUrl e'.config.url = false :=
      fun e' h' => he e' (List.mem_cons_of_mem e h')
    simp only [deliverAll, hstep]
    rw [ih { s with failedQueue := s.failedQueue ++ [e.config] } hr hrest]
    simp [List.append_assoc]

/-- Claim C1: with a single refresh already in flight (one refresh POST
issued, queue empty), delivering any batch of concurrently failing 401
requests (non-auth URLs, not yet retried) queues all of them and issues no
further refresh call; once that refresh resolves, every queued request and
the pending retried request are replayed with the new access token, the
refresh count still being one. -/
theorem single_flight_refresh_queue (s : ApiState) (errs : List HttpError)
    (pendingRetry : RequestConfig) (d : TokenPair)
    (hr : s.isRefreshing = true) (hc : s.refreshCalls = 1) (hq : s.failedQueue = [])
    (he : ∀ e ∈ errs, e.status = some 401 ∧ e.config.retryFlag = false ∧
        isAuthEndpointUrl e.config.url = false) :
    (deliverAll s errs).failedQueue = errs.map (fun e => e.config) ∧
    (deliverAll s errs).refreshCalls = 1 ∧
    (deliverAll s errs).isRefreshing = true ∧
    (settleRefresh (deliverAll s errs) pendingRetry (Except.ok d)).1.refreshCalls = 1 ∧
    (settleRefresh (deliverAll s errs) pendingRetry (Except.ok d)).2.2 =
      errs.map (fun e => (e.config,
        Outcome.replay { e.config with authHeader := some ("Bearer " ++ d.accessToken) })) ∧
    (settleRefresh (deliverAll s errs) pendingRetry (Except.ok d)).2.1 =
      Outcome.replay { pendingRetry with authHeader := some ("Bearer " ++ d.accessToken) } := by
  rw [deliverAll_queues errs s hr he, hq]
  refine ⟨by simp, hc, hr, hc, ?_, rfl⟩
  show processQueue none (some d.accessToken) ([] ++ errs.map fun e => e.config) = _
  rw [List.nil_append, processQueue_resolve, List.map_map]
  rfl

/-- Witness for C1: two concrete requests failing 401 while a refresh is in
flight are both queued, the refresh count stays one, and both (plus the
pending request) replay with `Bearer newTok` after the refresh resolves. -/
theorem single_flight_refresh_queue_witness :
    (deliverAll { isRefreshing := true, failedQueue := [], storage := { token := some "oldTok", refreshToken := some "oldRef" }, refreshCalls := 1, redirectedToLogin := false } [{ status := some 401, config := { url := some "/content/1", authHeader := some "Bearer oldTok", retryFlag := false } }, { status := some 401, config := { url := some "/tag?limit=5", authHeader := some "Bearer oldTok", retryFlag := false } }]).failedQueue = [{ url := some "/content/1", authHeader := some "Bearer oldTok", retryFlag := false }, { url := some "/tag?limit=5", authHeader := some "Bearer oldTok", retryFlag := false }] ∧
    (deliverAll { isRefreshing := true, failedQueue := [], storage := { token := some "oldTok", refreshToken := some "oldRef" }, refreshCalls := 1, redirectedToLogin := false } [{ status := some 401, config := { url := some "/content/1", authHeader := some "Bearer oldTok", retryFlag := false } }, { status := some 401, config := { url := some "/tag?limit=5", authHeader := some "Bearer oldTok", retryFlag := false } }]).refreshCalls = 1 ∧
    (deliverAll { isRefreshing := true, failedQueue := [], storage := { token := some "oldTok", refreshToken := some "oldRef" }, refreshCalls := 1, redirectedToLogin := false } [{ status := some 401, config := { url := some "/content/1", authHeader := some "Bearer oldTok", retryFlag := false } }, { status := some 401, config := { url := some "/tag?limit=5", authHeader := some "Bearer oldTok", retryFlag := false } }]).isRefreshing = true ∧
    (settleRefresh (deliverAll { isRefreshing := true, failedQueue := [], storage := { token := some "oldTok", refreshToken := some "oldRef" }, refreshCalls := 1, redirectedToLogin := false } [{ status := some 401, config := { url := some "/content/1", authHeader := some "Bearer oldTok", retryFlag := false } }, { status := some 401, config := { url := some "/tag?limit=5", authHeader := some "Bearer oldTok", retryFlag := false } }]) { url := some "/content/0", authHeader := some "Bearer oldTok", retryFlag := true } (Except.ok { accessToken := "newTok", refreshToken := "newRef" })).1.refreshCalls = 1 ∧
    (settleRefresh (deliverAll { isRefreshing := true, failedQueue := [], storage := { token := some "oldTok", refreshToken := some "oldRef" }, refreshCalls := 1, redirectedToLogin := false } [{ status := some 401, config := { url := some "/content/1", authHeader := some "Bearer oldTok", retryFlag := false } }, { status := some 401, config := { url := some "/tag?limit=5", authHeader := some "Bearer oldTok", retryFlag := false } }]) { url := some "/content/0", authHeader := some "Bearer oldTok", retryFlag := true } (Except.ok { accessToken := "newTok", refreshToken := "newRef" })).2.2 =
      ([{ status := some 401, config := { url := some "/content/1", authHeader := some "Bearer oldTok", retryFlag := false } }, { status := some 401, config := { url := some "/tag?limit=5", authHeader := some "Bearer oldTok", retryFlag := false } }] : List HttpError).map (fun e => (e.config, Outcome.replay { e.config with authHeader := some ("Bearer " ++ "newTok") })) ∧
    (settleRefresh (deliverAll { isRefreshing := true, failedQueue := [], storage := { token := some "oldTok", refreshToken := some "oldRef" }, refreshCalls := 1, redirectedToLogin := false } [{ status := some 401, config := { url := some "/content/1", authHeader := some "Bearer oldTok", retryFlag := false } }, { status := some 401, config := { url := some "/tag?limit=5", authHeader := some "Bearer oldTok", retryFlag := false } }]) { url := some "/content/0", authHeader := some "Bearer oldTok", retryFlag := true } (Except.ok { accessToken := "newTok", refreshToken := "newRef" })).2.1 =
      Outcome.replay { url := some "/content/0", authHeader := some ("Bearer " ++ "newTok"), retryFlag := true } :=
  single_flight_refresh_queue _ _ _ _ rfl rfl rfl (by decide)

/-- Claim C2 (amended): a 401-failing request (non-auth URL, not yet
retried) arriving with no refresh in flight and a stored non-empty (truthy)
refresh token starts exactly one refresh; on success it is replayed exactly once with
the new access token and the retry flag set, and any 401 on a request
whose retry flag is set is rejected outright with the original error, so
that request is never refreshed or replayed again. (Requests queued behind
an in-flight refresh replay without the retry flag, so a 401 on their
replay can start another refresh-and-retry cycle; see the
counterexample.) -/
theorem refresh_and_retry_once (s s2 : ApiState) (e : HttpError) (rt : String) (d : TokenPair)
    (hr : s.isRefreshing = false)
    (h401 : e.status = some 401) (hretry : e.config.retryFlag = false)
    (hurl : isAuthEndpointUrl e.config.url = false)
    (htok : s.storage.refreshToken = some rt) (hrt : rt ≠ "") :
    onResponseError s e =
      InterceptStep.inFlight { s with isRefreshing := true, refreshCalls := s.refreshCalls + 1 }
        { e.config with retryFlag := true } ∧
    (settleRefresh { s with isRefreshing := true, refreshCalls := s.refreshCalls + 1 }
        { e.config with retryFlag := true } (Except.ok d)).2.1 =
      Outcome.replay { e.config with retryFlag := true, authHeader := some ("Bearer " ++ d.accessToken) } ∧
    (∀ e2 : HttpError, e2.status = some 401 → e2.config.retryFlag = true →
        onResponseError s2 e2 =
          InterceptStep.done s2 (Outcome.reject (RejectedWith.origErr e2)) []) := by
  refine ⟨?_, rfl, ?_⟩
  · simp [onResponseError, h401, hretry, hurl, hr, htok, truthyStr, hrt]
  · intro e2 h2 hr2
    simp [onResponseError, h2, hr2]

/-- Witness for C2: a concrete 401 on `/content/1` with a stored refresh
token starts one refresh, replays once with `Bearer newTok` and with the
retry flag set, and a retried request's 401 is rejected outright. -/
theorem refresh_and_retry_once_witness :
    onResponseError { isRefreshing := false, failedQueue := [], storage := { token := some "oldTok", refreshToken := some "oldRef" }, refreshCalls := 0, redirectedToLogin := false } { status := some 401, config := { url := some "/content/1", authHeader := some "Bearer oldTok", retryFlag := false } } =
      InterceptStep.inFlight { isRefreshing := true, failedQueue := [], storage := { token := some "oldTok", refreshToken := some "oldRef" }, refreshCalls := 0 + 1, redirectedToLogin := false } { url := some "/content/1", authHeader := some "Bearer oldTok", retryFlag := true } ∧
    (settleRefresh { isRefreshing := true, failedQueue := [], storage := { token := some "oldTok", refreshToken := some "oldRef" }, refreshCalls := 0 + 1, redirectedToLogin := false } { url := some "/content/1", authHeader := some "Bearer oldTok", retryFlag := true } (Except.ok { accessToken := "newTok", refreshToken := "newRef" })).2.1 =
      Outcome.replay { url := some "/content/1", authHeader := some ("Bearer " ++ "newTok"), retryFlag := true } ∧
    (∀ e2 : HttpError, e2.status = some 401 → e2.config.retryFlag = true →
        onResponseError { isRefreshing := false, failedQueue := [], storage := { token := some "newTok", refreshToken := some "newRef" }, refreshCalls := 1, redirectedToLogin := false } e2 =
          InterceptStep.done { isRefreshing := false, failedQueue := [], storage := { token := some "newTok", refreshToken := some "newRef" }, refreshCalls := 1, redirectedToLogin := false } (Outcome.reject (RejectedWith.origErr e2)) []) :=
  refresh_and_retry_once { isRefreshing := false, failedQueue := [], storage := { token := some "oldTok", refreshToken := some "oldRef" }, refreshCalls := 0, redirectedToLogin := false } { isRefreshing := false, failedQueue := [], storage := { token := some "newTok", refreshToken := some "newRef" }, refreshCalls := 1, redirectedToLogin := false } { status := some 401, config := { url := some "/content/1", authHeader := some "Bearer oldTok", retryFlag := false } } "oldRef" { accessToken := "newTok", refreshToken := "newRef" } rfl rfl rfl (by decide) rfl (by decide)

/-- Counterexample to C2 as stated: a request queued behind an in-flight
refresh is replayed without the retry flag, so when its replay fails with
401 again the client starts a second refresh (refresh call count 2) and
will replay it a second time — not "exactly once". -/
theorem refresh_and_retry_once_counterexample :
    onResponseError { isRefreshing := false, failedQueue := [], storage := { token := some "tok0", refreshToken := some "ref0" }, refreshCalls := 0, redirectedToLogin := false } { status := some 401, config := { url := some "/content/1", authHeader := some "Bearer tok0", retryFlag := false } } =
      InterceptStep.inFlight { isRefreshing := true, failedQueue := [], storage := { token := some "tok0", refreshToken := some "ref0" }, refreshCalls := 1, redirectedToLogin := false } { url := some "/content/1", authHeader := some "Bearer tok0", retryFlag := true } ∧
    onResponseError { isRefreshing := true, failedQueue := [], storage := { token := some "tok0", refreshToken := some "ref0" }, refreshCalls := 1, redirectedToLogin := false } { status := some 401, config := { url := some "/content/2", authHeader := some "Bearer tok0", retryFlag := false } } =
      InterceptStep.done { isRefreshing := true, failedQueue := [{ url := some "/content/2", authHeader := some "Bearer tok0", retryFlag := false }], storage := { token := some "tok0", refreshToken := some "ref0" }, refreshCalls := 1, redirectedToLogin := false } Outcome.queued [] ∧
    settleRefresh { isRefreshing := true, failedQueue := [{ url := some "/content/2", authHeader := some "Bearer tok0", retryFlag := false }], storage := { token := some "tok0", refreshToken := some "ref0" }, refreshCalls := 1, redirectedToLogin := false } { url := some "/content/1", authHeader := some "Bearer tok0", retryFlag := true } (Except.ok { accessToken := "tok1", refreshToken := "ref1" }) =
      ({ isRefreshing := false, failedQueue := [], storage := { token := some "tok1", refreshToken := some "ref1" }, refreshCalls := 1, redirectedToLogin := false },
       Outcome.replay { url := some "/content/1", authHeader := some "Bearer tok1", retryFlag := true },
       [({ url := some "/content/2", authHeader := some "Bearer tok0", retryFlag := false }, Outcome.replay { url := some "/content/2", authHeader := some "Bearer tok1", retryFlag := false })]) ∧
    onResponseError { isRefreshing := false, failedQueue := [], storage := { token := some "tok1", refreshToken := some "ref1" }, refreshCalls := 1, redirectedToLogin := false } { status := some 401, config := { url := some "/content/2", authHeader := some "Bearer tok1", retryFlag := false } } =
      InterceptStep.inFlight { isRefreshing := true, failedQueue := [], storage := { token := some "tok1", refreshToken := some "ref1" }, refreshCalls := 2, redirectedToLogin := false } { url := some "/content/2", authHeader := some "Bearer tok1", retryFlag := true } := by
  decide

/-- Claim C7 (amended): whenever the refresh fails — a missing stored
refresh token, or the refresh POST failing — both the `token` and
`refreshToken` storage entries are removed, the browser is redirected to
the login screen, and the refresh error (not the original request's 401
error) is propagated to the caller. -/
theorem refresh_failure_cleanup (s sB : ApiState) (e : HttpError) (code : Nat)
    (pendingRetry : RequestConfig)
    (h401 : e.status = some 401) (hretry : e.config.retryFlag = false)
    (hurl : isAuthEndpointUrl e.config.url = false)
    (hr : s.isRefreshing = false) (htok : s.storage.refreshToken = none) :
    onResponseError s e =
      InterceptStep.done { s with isRefreshing := false, failedQueue := [], storage := { token := none, refreshToken := none }, redirectedToLogin := true }
        (Outcome.reject (RejectedWith.refreshErr RefreshFailure.noToken))
        (processQueue (some RefreshFailure.noToken) none s.failedQueue) ∧
    (settleRefresh sB pendingRetry (Except.error code)).1.storage =
      { token := none, refreshToken := none } ∧
    (settleRefresh sB pendingRetry (Except.error code)).1.redirectedToLogin = true ∧
    (settleRefresh sB pendingRetry (Except.error code)).2.1 =
      Outcome.reject (RejectedWith.refreshErr (RefreshFailure.httpFailure code)) := by
  refine ⟨?_, rfl, rfl, rfl⟩
  simp [onResponseError, h401, hretry, hurl, hr, htok, truthyStr]

/-- Witness for C7: a 401 with no stored refresh token clears storage,
redirects, and rejects with the refresh error; a failing refresh POST
(status 500) does the same. -/
theorem refresh_failure_cleanup_witness :
    onResponseError { isRefreshing := false, failedQueue := [], storage := { token := some "tok0", refreshToken := none }, refreshCalls := 0, redirectedToLogin := false } { status := some 401, config := { url := some "/content/1", authHeader := some "Bearer tok0", retryFlag := false } } =
      InterceptStep.done { isRefreshing := false, failedQueue := [], storage := { token := none, refreshToken := none }, refreshCalls := 0, redirectedToLogin := true }
        (Outcome.reject (RejectedWith.refreshErr RefreshFailure.noToken))
        (processQueue (some RefreshFailure.noToken) none []) ∧
    (settleRefresh { isRefreshing := true, failedQueue := [], storage := { token := some "tok0", refreshToken := some "ref0" }, refreshCalls := 1, redirectedToLogin := false } { url := some "/content/1", authHeader := some "Bearer tok0", retryFlag := true } (Except.error 500)).1.storage =
      { token := none, refreshToken := none } ∧
    (settleRefresh { isRefreshing := true, failedQueue := [], storage := { token := some "tok0", refreshToken := some "ref0" }, refreshCalls := 1, redirectedToLogin := false } { url := some "/content/1", authHeader := some "Bearer tok0", retryFlag := true } (Except.error 500)).1.redirectedToLogin = true ∧
    (settleRefresh { isRefreshing := true, failedQueue := [], storage := { token := some "tok0", refreshToken := some "ref0" }, refreshCalls := 1, redirectedToLogin := false } { url := some "/content/1", authHeader := some "Bearer tok0", retryFlag := true } (Except.error 500)).2.1 =
      Outcome.reject (RejectedWith.refreshErr (RefreshFailure.httpFailure 500)) :=
  refresh_failure_cleanup { isRefreshing := false, failedQueue := [], storage := { token := some "tok0", refreshToken := none }, refreshCalls := 0, redirectedToLogin := false } { isRefreshing := true, failedQueue := [], storage := { token := some "tok0", refreshToken := some "ref0" }, refreshCalls := 1, redirectedToLogin := false } { status := some 401, config := { url := some "/content/1", authHeader := some "Bearer tok0", retryFlag := false } } 500 { url := some "/content/1", authHeader := some "Bearer tok0", retryFlag := true } rfl rfl (by decide) rfl rfl

/-- Counterexample to C7 as stated: on a failed refresh the value rejected
to the caller is the refresh error, which is not the original request's
401 error object. -/
theorem refresh_failure_cleanup_counterexample :
    (settleRefresh { isRefreshing := true, failedQueue := [], storage := { token := some "tok0", refreshToken := some "ref0" }, refreshCalls := 1, redirectedToLogin := false } { url := some "/content/9", authHeader := some "Bearer tok0", retryFlag := true } (Except.error 500)).2.1 =
      Outcome.reject (RejectedWith.refreshErr (RefreshFailure.httpFailure 500)) ∧
    Outcome.reject (RejectedWith.refreshErr (RefreshFailure.httpFailure 500)) ≠
      Outcome.reject (RejectedWith.origErr { status := some 401, config := { url := some "/content/9", authHeader := some "Bearer tok0", retryFlag := false } }) := by
  decide

/-- Claim C8: a 401 response to a request whose URL is the login or the
refresh endpoint is rejected to the caller immediately: the interceptor
state, including the stored tokens, is unchanged, no refresh is attempted
and the request is not retried. -/
theorem auth_endpoint_401_rejected (s : ApiState) (e : HttpError)
    (h401 : e.status = some 401)
    (hurl : isAuthEndpointUrl e.config.url = true) :
    onResponseError s e =
      InterceptStep.done s (Outcome.reject (RejectedWith.origErr e)) [] := by
  by_cases hretry : e.config.retryFlag = true
  · simp [onResponseError, h401, hretry]
  · simp [onResponseError, h401, hretry, hurl]

/-- Witness for C8: a concrete 401 on `/auth/login` is rejected with the
original error and the state is untouched. -/
theorem auth_endpoint_401_rejected_witness :
    onResponseError { isRefreshing := false, failedQueue := [], storage := { token := some "tok0", refreshToken := some "ref0" }, refreshCalls := 0, redirectedToLogin := false } { status := some 401, config := { url := some "/auth/login", authHeader := none, retryFlag := false } } =
      InterceptStep.done { isRefreshing := false, failedQueue := [], storage := { token := some "tok0", refreshToken := some "ref0" }, refreshCalls := 0, redirectedToLogin := false }
        (Outcome.reject (RejectedWith.origErr { status := some 401, config := { url := some "/auth/login", authHeader := none, retryFlag := false } })) [] :=
  auth_endpoint_401_rejected _ _ rfl (by decide)

/-- Claim C9 (amended): the HTTP client's base URL equals the backend-URL
environment variable's value when that is set to a non-empty string, and
equals the same-origin path `/api` when the variable is unset or empty. -/
theorem base_url_configuration (s : String) :
    (s ≠ "" → apiBaseURL (some s) = s) ∧
    apiBaseURL none = "/api" ∧ apiBaseURL (some "") = "/api" := by
  refine ⟨?_, rfl, rfl⟩
  intro h
  simp [apiBaseURL, jsOrElse, h]

/-- Witness for C9: a non-empty backend URL is used verbatim; the unset
variable falls back to `/api`. -/
theorem base_url_configuration_witness :
    apiBaseURL (some "http://localhost:8080") = "http://localhost:8080" ∧
    apiBaseURL none = "/api" :=
  ⟨(base_url_configuration "http://localhost:8080").1 (by decide),
   (base_url_configuration "x").2.1⟩

/-- Counterexample to C9 as stated: with the environment variable set to
the empty string the base URL is `/api`, not the variable's value. -/
theorem base_url_configuration_counterexample :
    apiBaseURL (some "") = "/api" ∧ "/api" ≠ "" := by
  decide

end Vekku
